import Mathlib

/-!
# Withdrawal Ledger Service — shallow embedding

A shallow embedding of the restaurant withdrawal-request lifecycle from
`src/backend/modules/restaurant/controllers/withdrawalController.js`:
a per-restaurant wallet (`totalBalance`, `totalWithdrawn`, a transaction
list) and withdrawal requests mutated by three operations
(`createWithdrawalRequest`, `approveWithdrawalRequest`,
`rejectWithdrawalRequest`), plus the two paginated listing endpoints.

Modelling conventions:
- Money amounts are rationals (JS numbers; the arithmetic here is exact).
- Database ids (`_id`) are naturals; fresh ids come from counters carried
  in the state.  The Mongo `restaurantIdVariations` normalisation collapses
  to plain id equality.
- Timestamps are integers counting milliseconds; the day-of-week of a
  timestamp follows the Unix convention (day 0 was a Thursday).
- The HTTP layer is a `Resp` code; the `catch`-all 500 branches (database
  failures) and the best-effort e-mails cannot fire in the pure model.
- `req.restaurant` authentication is taken as given for the restaurant
  operation; admin authentication is an `Option Nat` parameter.
-/

inductive TxType where
  | withdrawal
  | refund
deriving DecidableEq, Repr

inductive TxStatus where
  | Pending
  | Completed
  | Cancelled
deriving DecidableEq, Repr

inductive WRStatus where
  | Pending
  | Approved
  | Rejected
  | Processed
deriving DecidableEq, Repr

/-- The string stored in the `status` field of a `WithdrawalRequest`
document (the listing filters compare against these strings). -/
def WRStatus.toStr : WRStatus → String
  | .Pending => "Pending"
  | .Approved => "Approved"
  | .Rejected => "Rejected"
  | .Processed => "Processed"

structure Transaction where
  id : Nat
  amount : ℚ
  type : TxType
  status : TxStatus
  description : String
  processedAt : Option Int
deriving DecidableEq, Repr

structure Wallet where
  totalBalance : ℚ
  totalWithdrawn : ℚ
  transactions : List Transaction
  nextTxId : Nat
deriving DecidableEq, Repr

structure WithdrawalRequest where
  id : Nat
  restaurantId : Nat
  amount : ℚ
  status : WRStatus
  transactionId : Option Nat
  processedAt : Option Int
  processedBy : Option Nat
  rejectionReason : Option String
  createdAt : Int
  restaurantName : String
  restaurantIdString : String
deriving DecidableEq, Repr

/-- `order.pricing` (only `subtotal` and `discount` are read; the JS
`|| 0` defaults are absorbed into total fields). -/
structure Pricing where
  subtotal : ℚ
  discount : ℚ
deriving DecidableEq, Repr

structure Order where
  restaurantId : Nat
  status : String
  pricing : Pricing
  deliveredAt : Option Int
  trackingDeliveredAt : Option Int
  createdAt : Int
deriving DecidableEq, Repr

/-- The read-only environment of a call: the order collection, the
restaurant collection (id ↦ (name, external restaurantId string)) and the
current time. -/
structure Env where
  orders : List Order
  restaurants : List (Nat × String × String)
  now : Int
deriving DecidableEq, Repr

/-- The mutable database state: wallets keyed by restaurant id, the
withdrawal-request collection, and the fresh-id counter for requests. -/
structure St where
  wallets : List (Nat × Wallet)
  requests : List WithdrawalRequest
  nextReqId : Nat
deriving DecidableEq, Repr

/-- HTTP response: `successResponse` / `errorResponse` with status code. -/
inductive Resp where
  | success (code : Nat)
  | error (code : Nat) (msg : String)
deriving DecidableEq, Repr

def Resp.isClientError : Resp → Bool
  | .error c _ => 400 ≤ c && c < 500
  | .success _ => false

/-- `Math.max` on two JS numbers, written as an explicit conditional so
that it evaluates by kernel reduction (it equals `max`, see
`qmax_eq_max`). -/
def qmax (a b : ℚ) : ℚ := if a ≤ b then b else a

/-! ## Wallet store -/

def emptyWallet : Wallet :=
  { totalBalance := 0, totalWithdrawn := 0, transactions := [], nextTxId := 0 }

def lookupWallet : List (Nat × Wallet) → Nat → Option Wallet
  | [], _ => none
  | p :: ps, rid => if p.1 = rid then some p.2 else lookupWallet ps rid

def upsertWallet : List (Nat × Wallet) → Nat → Wallet → List (Nat × Wallet)
  | [], rid, w => [(rid, w)]
  | p :: ps, rid, w => if p.1 = rid then (rid, w) :: ps else p :: upsertWallet ps rid w

/-- `RestaurantWallet.findOrCreateByRestaurantId`: the wallet stored for
the restaurant, or a fresh zeroed wallet. -/
def findOrCreateWallet (st : St) (rid : Nat) : Wallet :=
  (lookupWallet st.wallets rid).getD emptyWallet

def saveWallet (st : St) (rid : Nat) (w : Wallet) : St :=
  { st with wallets := upsertWallet st.wallets rid w }

/-- `withdrawalRequest.save()` after mutating an existing document:
replace the request with the same id. -/
def saveRequest (st : St) (req : WithdrawalRequest) : St :=
  { st with requests := st.requests.map (fun r => if r.id = req.id then req else r) }

/-- Modelled from the spec: `RestaurantWallet.addTransaction` (the model
file `RestaurantWallet.js` is not under `src/`; only this controller calls
it).  Per the spec, approving a request marks the linked — or newly
created — transaction Completed with "no further deduction", and the
controller performs every balance change explicitly; so `addTransaction`
appends a transaction with a fresh id and leaves both totals unchanged,
returning the new transaction. -/
def Wallet.addTransaction (w : Wallet) (amount : ℚ) (ty : TxType)
    (status : TxStatus) (descr : String) : Transaction × Wallet :=
  let t : Transaction :=
    { id := w.nextTxId, amount := amount, type := ty, status := status,
      description := descr, processedAt := none }
  (t, { w with transactions := w.transactions ++ [t], nextTxId := w.nextTxId + 1 })

/-- `wallet.transactions.id(tid)`: look a subdocument up by its id. -/
def Wallet.findTxById (w : Wallet) (tid : Nat) : Option Transaction :=
  w.transactions.find? (fun t => t.id = tid)

/-- Mark the transaction with id `tid` with the given status and
processing time (in-place subdocument mutation followed by `save`). -/
def Wallet.setTxStatus (w : Wallet) (tid : Nat) (s : TxStatus) (t : Int) : Wallet :=
  { w with transactions :=
      w.transactions.map (fun tx =>
        if tx.id = tid then { tx with status := s, processedAt := some t } else tx) }

/-! ## String containment (`String.prototype.includes`, `$regex` search) -/

def charsPrefixOf : List Char → List Char → Bool
  | [], _ => true
  | _ :: _, [] => false
  | c :: cs, d :: ds => c = d && charsPrefixOf cs ds

def charsContains (pat : List Char) : List Char → Bool
  | [] => charsPrefixOf pat []
  | c :: cs => charsPrefixOf pat (c :: cs) || charsContains pat cs

/-- `hay.includes(pat)` on JS strings. -/
def strContains (hay pat : String) : Bool :=
  charsContains pat.data hay.data

/-- Case-insensitive containment: `$regex: search, $options: "i"` applied
to a plain (metacharacter-free) search string. -/
def strContainsCI (hay pat : String) : Bool :=
  strContains hay.toLower pat.toLower

/-! ## Weekly cycle window (Monday–Sunday containing `now`) -/

def msPerDay : Int := 86400000

/-- Day number of a millisecond timestamp (floor division). -/
def dayIndex (t : Int) : Int := Int.fdiv t msPerDay

/-- `Date.prototype.getDay`: 0 = Sunday … 6 = Saturday (Unix day 0, at
the epoch, was a Thursday, day-of-week 4). -/
def getDay (t : Int) : Int := (dayIndex t + 4) % 7

/-- `currentDay === 0 ? 6 : currentDay - 1`. -/
def daysFromMonday (day : Int) : Int := if day = 0 then 6 else day - 1

/-- Midnight opening the Monday of the cycle containing `now`
(`setDate(now.getDate() - daysFromMonday); setHours(0,0,0,0)`). -/
def cycleStart (now : Int) : Int :=
  (dayIndex now - daysFromMonday (getDay now)) * msPerDay

/-- Last millisecond of the following Sunday
(`setDate(cycleStart.getDate() + 6); setHours(23,59,59,999)`). -/
def cycleEnd (now : Int) : Int := cycleStart now + 7 * msPerDay - 1

/-- Membership of an order in the cycle window: any of `deliveredAt`,
`tracking.delivered.timestamp`, `createdAt` lies in `[cs, ce]`. -/
def inCycleWindow (cs ce : Int) (o : Order) : Bool :=
  (match o.deliveredAt with
   | some t => decide (cs ≤ t) && decide (t ≤ ce)
   | none => false) ||
  (match o.trackingDeliveredAt with
   | some t => decide (cs ≤ t) && decide (t ≤ ce)
   | none => false) ||
  (decide (cs ≤ o.createdAt) && decide (o.createdAt ≤ ce))

/-- The `Order.find` query of `createWithdrawalRequest`: delivered orders
of the restaurant whose (delivery or creation) time falls in the window. -/
def deliveredOrdersQuery (orders : List Order) (rid : Nat) (cs ce : Int) : List Order :=
  orders.filter (fun o => o.status = "delivered" && o.restaurantId = rid && inCycleWindow cs ce o)

/-- `foodPrice = (pricing.subtotal || 0) - (pricing.discount || 0)`. -/
def foodPrice (o : Order) : ℚ := o.pricing.subtotal - o.pricing.discount

/-- Net revenue of one order with the fixed 10% commission fallback:
`Math.max(0, foodPrice - foodPrice * 10 / 100)`. -/
def orderNet (o : Order) : ℚ := qmax 0 (foodPrice o - foodPrice o * 10 / 100)

/-- `deliveredOrders.reduce(...)`: the cycle payout. -/
def cyclePayout (orders : List Order) : ℚ :=
  orders.foldl (fun s o => s + orderNet o) 0

/-- Sum of amounts of the restaurant's existing Pending/Approved
withdrawal requests. -/
def pendingApprovedSum (st : St) (rid : Nat) : ℚ :=
  (st.requests.filter (fun r =>
      r.restaurantId = rid && (r.status = WRStatus.Pending || r.status = WRStatus.Approved))).foldl
    (fun s r => s + r.amount) 0

/-- `financeAvailableBalance = Math.max(0, cyclePayout - totalExistingWithdrawals)`. -/
def financeAvailableBalance (env : Env) (st : St) (rid : Nat) : ℚ :=
  qmax 0 (cyclePayout (deliveredOrdersQuery env.orders rid (cycleStart env.now) (cycleEnd env.now))
          - pendingApprovedSum st rid)

/-- `effectiveAvailableBalance = Math.max(walletAvailableBalance, financeAvailableBalance)`. -/
def effectiveAvailableBalance (env : Env) (st : St) (rid : Nat) : ℚ :=
  qmax (findOrCreateWallet st rid).totalBalance (financeAvailableBalance env st rid)

/-- Is there a Pending request for the restaurant
(`WithdrawalRequest.findOne` on status Pending)? -/
def hasPendingRequest (st : St) (rid : Nat) : Bool :=
  st.requests.any (fun r => r.restaurantId = rid && r.status = WRStatus.Pending)

/-- `Restaurant.findById(...).select("name restaurantId")`, with the
controller's fallbacks to the authenticated restaurant object /
`"Unknown"` / the raw id string. -/
def lookupRestaurantInfo (env : Env) (rid : Nat) : String × String :=
  match env.restaurants.find? (fun p => p.1 = rid) with
  | some p => p.2
  | none => ("Unknown", toString rid)

/-! ## The three operations -/

/-- The straight-line success path of `createWithdrawalRequest`
(lines 143–180 of the controller): persist the new Pending request,
append a Pending withdrawal transaction, clamp-deduct `totalBalance`,
increment `totalWithdrawn`, link the transaction id. -/
def createSuccessState (env : Env) (st : St) (rid : Nat) (amount : ℚ) : St :=
  let wallet := findOrCreateWallet st rid
  let reqId := st.nextReqId
  let info := lookupRestaurantInfo env rid
  let req0 : WithdrawalRequest :=
    { id := reqId, restaurantId := rid, amount := amount, status := WRStatus.Pending,
      transactionId := none, processedAt := none, processedBy := none,
      rejectionReason := none, createdAt := env.now,
      restaurantName := info.1, restaurantIdString := info.2 }
  let txw := wallet.addTransaction amount TxType.withdrawal TxStatus.Pending
    ("Withdrawal request created - Request ID: " ++ toString reqId)
  let wallet2 : Wallet :=
    { txw.2 with totalBalance := qmax 0 (txw.2.totalBalance - amount),
                 totalWithdrawn := txw.2.totalWithdrawn + amount }
  let req : WithdrawalRequest := { req0 with transactionId := some txw.1.id }
  let st1 : St := { st with requests := st.requests ++ [req], nextReqId := reqId + 1 }
  saveWallet st1 rid wallet2

/-- `POST /api/restaurant/withdrawal/request` for an authenticated
restaurant `rid` and a numeric body amount. -/
def createWithdrawalRequest (env : Env) (st : St) (rid : Nat) (amount : ℚ) : Resp × St :=
  if amount ≤ 0 then
    (Resp.error 400 "Valid withdrawal amount is required", st)
  else if effectiveAvailableBalance env st rid < amount then
    (Resp.error 400 "Insufficient balance", st)
  else if hasPendingRequest st rid then
    (Resp.error 400 "You already have a pending withdrawal request", st)
  else
    (Resp.success 201, createSuccessState env st rid amount)

/-- The transaction-resolution step shared by approve and reject: the
transaction linked by `transactionId`, else the first Pending withdrawal
transaction whose description mentions the request id. -/
def findPendingWithdrawalTx (w : Wallet) (req : WithdrawalRequest) : Option Transaction :=
  match req.transactionId with
  | some tid =>
    match w.findTxById tid with
    | some t => some t
    | none =>
      w.transactions.find? (fun t =>
        t.type = TxType.withdrawal && t.status = TxStatus.Pending &&
          strContains t.description (toString req.id))
  | none =>
    w.transactions.find? (fun t =>
      t.type = TxType.withdrawal && t.status = TxStatus.Pending &&
        strContains t.description (toString req.id))

/-- `POST /api/admin/withdrawal/:id/approve`. -/
def approveWithdrawalRequest (env : Env) (st : St) (admin : Option Nat) (id : Nat) :
    Resp × St :=
  match admin with
  | none => (Resp.error 401 "Admin authentication required", st)
  | some adminId =>
    match st.requests.find? (fun r => r.id = id) with
    | none => (Resp.error 404 "Withdrawal request not found", st)
    | some req =>
      if req.status ≠ WRStatus.Pending then
        (Resp.error 400 "Withdrawal request is already processed", st)
      else
        let wallet := findOrCreateWallet st req.restaurantId
        let req1 : WithdrawalRequest :=
          { req with status := WRStatus.Approved, processedAt := some env.now,
                     processedBy := some adminId }
        let st1 := saveRequest st req1
        let wallet1 :=
          match findPendingWithdrawalTx wallet req with
          | some t => wallet.setTxStatus t.id TxStatus.Completed env.now
          | none =>
            (wallet.addTransaction req.amount TxType.withdrawal TxStatus.Completed
              ("Withdrawal request approved - Request ID: " ++ toString req.id)).2
        (Resp.success 200, saveWallet st1 req.restaurantId wallet1)

/-- `POST /api/admin/withdrawal/:id/reject`. -/
def rejectWithdrawalRequest (env : Env) (st : St) (admin : Option Nat) (id : Nat)
    (reason : Option String) : Resp × St :=
  match admin with
  | none => (Resp.error 401 "Admin authentication required", st)
  | some adminId =>
    match st.requests.find? (fun r => r.id = id) with
    | none => (Resp.error 404 "Withdrawal request not found", st)
    | some req =>
      if req.status ≠ WRStatus.Pending then
        (Resp.error 400 "Withdrawal request is already processed", st)
      else
        let wallet := findOrCreateWallet st req.restaurantId
        let req1 : WithdrawalRequest :=
          { req with status := WRStatus.Rejected, processedAt := some env.now,
                     processedBy := some adminId,
                     rejectionReason :=
                       match reason with
                       | some r => some r
                       | none => req.rejectionReason }
        let st1 := saveRequest st req1
        let wallet1 :=
          match findPendingWithdrawalTx wallet req with
          | some t => wallet.setTxStatus t.id TxStatus.Cancelled env.now
          | none =>
            (wallet.addTransaction req.amount TxType.refund TxStatus.Completed
              ("Withdrawal request rejected - Refund for Request ID: " ++ toString req.id)).2
        let wallet2 : Wallet :=
          { wallet1 with
              totalBalance := wallet1.totalBalance + req.amount,
              totalWithdrawn := qmax 0 (wallet1.totalWithdrawn - req.amount) }
        (Resp.success 200, saveWallet st1 req.restaurantId wallet2)

/-- The three mutating operations, for invariant-preservation statements. -/
inductive Op where
  | create (rid : Nat) (amount : ℚ)
  | approve (admin : Option Nat) (id : Nat)
  | reject (admin : Option Nat) (id : Nat) (reason : Option String)

/-- The state after running one operation. -/
def applyOp (env : Env) (st : St) : Op → St
  | Op.create rid amount => (createWithdrawalRequest env st rid amount).2
  | Op.approve admin id => (approveWithdrawalRequest env st admin id).2
  | Op.reject admin id reason => (rejectWithdrawalRequest env st admin id reason).2

/-! ## Listing endpoints -/

/-- The status filter of both listing queries: applied only when the
query value is one of the four defined statuses
(`["Pending","Approved","Rejected","Processed"].includes(status)`). -/
def statusMatches (filt : Option String) (r : WithdrawalRequest) : Bool :=
  match filt with
  | none => true
  | some s =>
    if ["Pending", "Approved", "Rejected", "Processed"].contains s then
      r.status.toStr = s
    else
      true

/-- The admin search filter: case-insensitive regex over restaurant name
or external id string (absent search matches everything). -/
def searchMatches (search : Option String) (r : WithdrawalRequest) : Bool :=
  match search with
  | none => true
  | some s => strContainsCI r.restaurantName s || strContainsCI r.restaurantIdString s

/-- Stable insertion keeping newest (`createdAt` descending) first, the
`sort({ createdAt: -1 })` of both listings. -/
def insertByCreatedDesc (r : WithdrawalRequest) :
    List WithdrawalRequest → List WithdrawalRequest
  | [] => [r]
  | x :: xs =>
    if x.createdAt < r.createdAt then r :: x :: xs else x :: insertByCreatedDesc r xs

def sortByCreatedDesc (l : List WithdrawalRequest) : List WithdrawalRequest :=
  l.foldr insertByCreatedDesc []

/-- `GET /api/restaurant/withdrawal/requests`: the page of requests the
restaurant sees (filter, sort newest first, skip `(page-1)*limit`, take
`limit`). -/
def getRestaurantWithdrawalRequests (st : St) (rid : Nat) (status : Option String)
    (page limit : Nat) : List WithdrawalRequest :=
  let query := st.requests.filter (fun r => r.restaurantId = rid && statusMatches status r)
  ((sortByCreatedDesc query).drop ((page - 1) * limit)).take limit

/-- `GET /api/admin/withdrawal/requests`: the page of requests the admin
sees, with the optional name/id search. -/
def getAllWithdrawalRequests (st : St) (status : Option String) (search : Option String)
    (page limit : Nat) : List WithdrawalRequest :=
  let query := st.requests.filter (fun r => statusMatches status r && searchMatches search r)
  ((sortByCreatedDesc query).drop ((page - 1) * limit)).take limit

/-! ## Invariants and the spec-side balance formula -/

/-- At most one Pending request per restaurant. -/
def PendingAtMostOne (st : St) : Prop :=
  ∀ rid : Nat,
    st.requests.countP (fun r => r.restaurantId = rid && r.status = WRStatus.Pending) ≤ 1

/-- Every stored wallet has a non-negative balance. -/
def BalancesNonneg (st : St) : Prop :=
  ∀ p ∈ st.wallets, 0 ≤ p.2.totalBalance

/-- Every stored withdrawal request has a non-negative amount. -/
def AmountsNonneg (st : St) : Prop :=
  ∀ r ∈ st.requests, 0 ≤ r.amount

/-- The effective available balance as the spec sentence words it: the
greater of (a) the wallet's stored `totalBalance` and (b) the
weekly-cycle payout minus the sum of existing Pending/Approved
withdrawal amounts (no clamp of (b) at zero). -/
def specEffectiveAvailableBalance (env : Env) (st : St) (rid : Nat) : ℚ :=
  qmax (findOrCreateWallet st rid).totalBalance
    (cyclePayout (deliveredOrdersQuery env.orders rid (cycleStart env.now) (cycleEnd env.now))
      - pendingApprovedSum st rid)

/-! ## Helper lemmas -/

theorem qmax_eq_max (a b : ℚ) : qmax a b = max a b := by
  unfold qmax
  split
  · exact (max_eq_right (by assumption)).symm
  · exact (max_eq_left (le_of_not_le (by assumption))).symm

theorem qmax_zero_nonneg (x : ℚ) : 0 ≤ qmax 0 x := by
  rw [qmax_eq_max]
  exact le_max_left 0 x

theorem lookupWallet_upsert_self (l : List (Nat × Wallet)) (rid : Nat) (w : Wallet) :
    lookupWallet (upsertWallet l rid w) rid = some w := by
  induction l with
  | nil => simp [upsertWallet, lookupWallet]
  | cons p ps ih =>
    by_cases h : p.1 = rid
    · simp [upsertWallet, lookupWallet, h]
    · simp [upsertWallet, lookupWallet, h, ih]

theorem findOrCreateWallet_save_self (st : St) (rid : Nat) (w : Wallet) :
    findOrCreateWallet (saveWallet st rid w) rid = w := by
  unfold findOrCreateWallet saveWallet
  rw [lookupWallet_upsert_self]
  rfl

theorem mem_upsertWallet (l : List (Nat × Wallet)) (rid : Nat) (w : Wallet)
    (p : Nat × Wallet) (h : p ∈ upsertWallet l rid w) : p = (rid, w) ∨ p ∈ l := by
  induction l with
  | nil => simpa [upsertWallet] using h
  | cons q qs ih =>
    by_cases hq : q.1 = rid
    · rw [upsertWallet, if_pos hq] at h
      rcases List.mem_cons.mp h with h | h
      · exact Or.inl h
      · exact Or.inr (List.mem_cons_of_mem _ h)
    · rw [upsertWallet, if_neg hq] at h
      rcases List.mem_cons.mp h with h | h
      · exact Or.inr (h ▸ List.mem_cons_self q qs)
      · rcases ih h with h' | h'
        · exact Or.inl h'
        · exact Or.inr (List.mem_cons_of_mem _ h')

theorem lookupWallet_mem (l : List (Nat × Wallet)) (rid : Nat) (w : Wallet)
    (h : lookupWallet l rid = some w) : ∃ p ∈ l, p.2 = w := by
  induction l with
  | nil => simp [lookupWallet] at h
  | cons q qs ih =>
    by_cases hq : q.1 = rid
    · rw [lookupWallet, if_pos hq, Option.some_inj] at h
      exact ⟨q, List.mem_cons_self q qs, h⟩
    · rw [lookupWallet, if_neg hq] at h
      obtain ⟨p, hp, hpw⟩ := ih h
      exact ⟨p, List.mem_cons_of_mem _ hp, hpw⟩

theorem findOrCreateWallet_balance_nonneg (st : St) (rid : Nat) (h : BalancesNonneg st) :
    0 ≤ (findOrCreateWallet st rid).totalBalance := by
  unfold findOrCreateWallet
  cases hl : lookupWallet st.wallets rid with
  | none => simp [emptyWallet]
  | some w =>
    obtain ⟨p, hp, hpw⟩ := lookupWallet_mem _ _ _ hl
    simpa [hpw] using h p hp

theorem find?_append_of_forall_false {α : Type} (p : α → Bool) (l₁ l₂ : List α)
    (h : ∀ x ∈ l₁, p x = false) : (l₁ ++ l₂).find? p = l₂.find? p := by
  induction l₁ with
  | nil => rfl
  | cons a l ih =>
    have ha := h a (List.mem_cons_self a l)
    rw [List.cons_append, List.find?_cons, ha]
    exact ih (fun x hx => h x (List.mem_cons_of_mem _ hx))

theorem countP_map_le {α : Type} (l : List α) (f : α → α) (p : α → Bool)
    (h : ∀ x, p (f x) = true → p x = true) :
    (l.map f).countP p ≤ l.countP p := by
  induction l with
  | nil => simp
  | cons a l ih =>
    rw [List.map_cons, List.countP_cons, List.countP_cons]
    refine Nat.add_le_add ih ?_
    by_cases hfa : p (f a) = true
    · rw [if_pos hfa, if_pos (h a hfa)]
    · rw [if_neg hfa]
      exact Nat.zero_le _

theorem find?_update_by_id (l : List WithdrawalRequest) (i : Nat)
    (req1 : WithdrawalRequest) (hid : req1.id = i)
    (h : (l.find? (fun r => r.id = i)).isSome = true) :
    (l.map (fun r => if r.id = req1.id then req1 else r)).find? (fun r => r.id = i) =
      some req1 := by
  induction l with
  | nil => simp [List.find?] at h
  | cons a l ih =>
    by_cases ha : a.id = i
    · have hmap : (if a.id = req1.id then req1 else a) = req1 :=
        if_pos (by rw [ha, hid])
      rw [List.map_cons, hmap, List.find?_cons_of_pos _ (by simp [hid])]
    · rw [List.find?_cons_of_neg _ (by simp [ha])] at h
      have hmap : (if a.id = req1.id then req1 else a) = a :=
        if_neg (by rw [hid]; exact ha)
      rw [List.map_cons, hmap, List.find?_cons_of_neg _ (by simp [ha])]
      exact ih h

theorem mem_of_findPendingWithdrawalTx (w : Wallet) (req : WithdrawalRequest)
    (t : Transaction) (h : findPendingWithdrawalTx w req = some t) :
    t ∈ w.transactions := by
  unfold findPendingWithdrawalTx at h
  split at h
  · split at h
    · rename_i t' htx
      unfold Wallet.findTxById at htx
      rw [Option.some_inj] at h
      exact h ▸ List.mem_of_find?_eq_some htx
    · exact List.mem_of_find?_eq_some h
  · exact List.mem_of_find?_eq_some h

theorem findPendingWithdrawalTx_of_link (w : Wallet) (req : WithdrawalRequest)
    (tid : Nat) (t : Transaction) (hlink : req.transactionId = some tid)
    (htx : w.findTxById tid = some t) : findPendingWithdrawalTx w req = some t := by
  unfold findPendingWithdrawalTx
  simp only [hlink, htx]

/-- The success branch of `approveWithdrawalRequest`, as one equation. -/
theorem approve_eq_of_pending (env : Env) (st : St) (adminId : Nat) (i : Nat)
    (req : WithdrawalRequest) (hfind : st.requests.find? (fun r => r.id = i) = some req)
    (hpend : req.status = WRStatus.Pending) :
    approveWithdrawalRequest env st (some adminId) i =
      (Resp.success 200,
        saveWallet
          (saveRequest st
            { req with status := WRStatus.Approved, processedAt := some env.now,
                       processedBy := some adminId })
          req.restaurantId
          (match findPendingWithdrawalTx (findOrCreateWallet st req.restaurantId) req with
           | some t =>
             (findOrCreateWallet st req.restaurantId).setTxStatus t.id TxStatus.Completed env.now
           | none =>
             ((findOrCreateWallet st req.restaurantId).addTransaction req.amount
               TxType.withdrawal TxStatus.Completed
               ("Withdrawal request approved - Request ID: " ++ toString req.id)).2)) := by
  unfold approveWithdrawalRequest
  simp only [hfind]
  rw [if_neg (by simp [hpend])]

/-- The success branch of `rejectWithdrawalRequest`, as one equation. -/
theorem reject_eq_of_pending (env : Env) (st : St) (adminId : Nat) (i : Nat)
    (reason : Option String) (req : WithdrawalRequest)
    (hfind : st.requests.find? (fun r => r.id = i) = some req)
    (hpend : req.status = WRStatus.Pending) :
    rejectWithdrawalRequest env st (some adminId) i reason =
      (Resp.success 200,
        saveWallet
          (saveRequest st
            { req with status := WRStatus.Rejected, processedAt := some env.now,
                       processedBy := some adminId,
                       rejectionReason :=
                         match reason with
                         | some r => some r
                         | none => req.rejectionReason })
          req.restaurantId
          (let wallet1 :=
            match findPendingWithdrawalTx (findOrCreateWallet st req.restaurantId) req with
            | some t =>
              (findOrCreateWallet st req.restaurantId).setTxStatus t.id TxStatus.Cancelled env.now
            | none =>
              ((findOrCreateWallet st req.restaurantId).addTransaction req.amount
                TxType.refund TxStatus.Completed
                ("Withdrawal request rejected - Refund for Request ID: " ++ toString req.id)).2
           { wallet1 with
               totalBalance := wallet1.totalBalance + req.amount,
               totalWithdrawn := qmax 0 (wallet1.totalWithdrawn - req.amount) })) := by
  unfold rejectWithdrawalRequest
  simp only [hfind]
  rw [if_neg (by simp [hpend])]

theorem effectiveAvailableBalance_nonneg (env : Env) (st : St) (rid : Nat) :
    0 ≤ effectiveAvailableBalance env st rid := by
  unfold effectiveAvailableBalance financeAvailableBalance
  rw [qmax_eq_max, qmax_eq_max]
  exact le_max_of_le_right (le_max_left _ _)

/-! ## Claims -/

/-- C1: whenever the requested amount exceeds the effective available
balance (the maximum of the wallet's stored `totalBalance` and the
computed weekly-cycle availability), `createWithdrawalRequest` returns
the 400 insufficient-balance client error and leaves the state — hence
the withdrawal-request collection — unchanged. -/
theorem create_insufficient_balance_rejected (env : Env) (st : St) (rid : Nat) (a : ℚ)
    (h : effectiveAvailableBalance env st rid < a) :
    createWithdrawalRequest env st rid a = (Resp.error 400 "Insufficient balance", st) := by
  have ha : ¬ a ≤ 0 :=
    not_le.mpr (lt_of_le_of_lt (effectiveAvailableBalance_nonneg env st rid) h)
  unfold createWithdrawalRequest
  rw [if_neg ha, if_pos h]

/-- Witness for C1 at a concrete empty state: the effective available
balance is 0, the request of 5 is rejected and nothing is created. -/
theorem create_insufficient_balance_rejected_witness :
    effectiveAvailableBalance ⟨[], [], 0⟩ ⟨[], [], 0⟩ 0 < 5 ∧
    createWithdrawalRequest ⟨[], [], 0⟩ ⟨[], [], 0⟩ 0 5 =
      (Resp.error 400 "Insufficient balance", ⟨[], [], 0⟩) :=
  ⟨by with_unfolding_all decide,
   create_insufficient_balance_rejected ⟨[], [], 0⟩ ⟨[], [], 0⟩ 0 5
     (by with_unfolding_all decide)⟩

/-- C2: when the wallet's stored balance is non-negative (the system's
own invariant), the effective available balance computed by
`createWithdrawalRequest` equals the spec's formula: the greater of
(a) the stored `totalBalance` and (b) the weekly-cycle payout (sum over
delivered orders in the current Monday–Sunday window of
`max(0, foodPrice - 10% commission)`, `foodPrice = subtotal - discount`)
minus the sum of existing Pending/Approved withdrawal amounts. -/
theorem effectiveBalance_matches_spec (env : Env) (st : St) (rid : Nat)
    (h : 0 ≤ (findOrCreateWallet st rid).totalBalance) :
    effectiveAvailableBalance env st rid = specEffectiveAvailableBalance env st rid := by
  unfold effectiveAvailableBalance financeAvailableBalance specEffectiveAvailableBalance
  rw [qmax_eq_max, qmax_eq_max, qmax_eq_max, ← max_assoc, max_eq_left h]

/-- Witness for C2 at a concrete state with one delivered order of
subtotal 100 (payout 90) and a stored balance of 20. -/
theorem effectiveBalance_matches_spec_witness :
    (0:ℚ) ≤ (findOrCreateWallet
        ⟨[(0, ⟨20, 0, [], 0⟩)], [], 0⟩ 0).totalBalance ∧
    effectiveAvailableBalance ⟨[⟨0, "delivered", ⟨100, 0⟩, some 0, none, 0⟩], [], 0⟩
        ⟨[(0, ⟨20, 0, [], 0⟩)], [], 0⟩ 0 =
      specEffectiveAvailableBalance ⟨[⟨0, "delivered", ⟨100, 0⟩, some 0, none, 0⟩], [], 0⟩
        ⟨[(0, ⟨20, 0, [], 0⟩)], [], 0⟩ 0 :=
  ⟨by with_unfolding_all decide,
   effectiveBalance_matches_spec ⟨[⟨0, "delivered", ⟨100, 0⟩, some 0, none, 0⟩], [], 0⟩
     ⟨[(0, ⟨20, 0, [], 0⟩)], [], 0⟩ 0 (by with_unfolding_all decide)⟩

/-- C9: in both listing operations, a status query value outside the four
defined statuses is not applied as a filter: the listing equals the one
with no status filter at all, for every page, limit and search. -/
theorem listing_status_filter_fallback (st : St) (rid : Nat) (s : String)
    (search : Option String) (page limit : Nat)
    (h : (["Pending", "Approved", "Rejected", "Processed"].contains s) = false) :
    getRestaurantWithdrawalRequests st rid (some s) page limit =
      getRestaurantWithdrawalRequests st rid none page limit ∧
    getAllWithdrawalRequests st (some s) search page limit =
      getAllWithdrawalRequests st none search page limit := by
  have hs : statusMatches (some s) = statusMatches none := by
    funext r
    simp only [statusMatches]
    rw [if_neg (by simpa using h)]
  unfold getRestaurantWithdrawalRequests getAllWithdrawalRequests
  rw [hs]
  exact ⟨rfl, rfl⟩

/-- Witness for C9: the status value "bogus" is outside the four defined
statuses and both listings over a one-request state ignore it. -/
theorem listing_status_filter_fallback_witness :
    ((["Pending", "Approved", "Rejected", "Processed"].contains "bogus") = false) ∧
    getRestaurantWithdrawalRequests
        ⟨[], [⟨0, 0, 5, WRStatus.Pending, none, none, none, none, 0, "R", "R1"⟩], 1⟩
        0 (some "bogus") 1 20 =
      getRestaurantWithdrawalRequests
        ⟨[], [⟨0, 0, 5, WRStatus.Pending, none, none, none, none, 0, "R", "R1"⟩], 1⟩
        0 none 1 20 ∧
    getAllWithdrawalRequests
        ⟨[], [⟨0, 0, 5, WRStatus.Pending, none, none, none, none, 0, "R", "R1"⟩], 1⟩
        (some "bogus") (some "R") 1 20 =
      getAllWithdrawalRequests
        ⟨[], [⟨0, 0, 5, WRStatus.Pending, none, none, none, none, 0, "R", "R1"⟩], 1⟩
        none (some "R") 1 20 :=
  ⟨by with_unfolding_all rfl,
   (listing_status_filter_fallback
      ⟨[], [⟨0, 0, 5, WRStatus.Pending, none, none, none, none, 0, "R", "R1"⟩], 1⟩
      0 "bogus" (some "R") 1 20 (by with_unfolding_all rfl)).1,
   (listing_status_filter_fallback
      ⟨[], [⟨0, 0, 5, WRStatus.Pending, none, none, none, none, 0, "R", "R1"⟩], 1⟩
      0 "bogus" (some "R") 1 20 (by with_unfolding_all rfl)).2⟩

/-- The request document persisted by the success path of
`createWithdrawalRequest`, after its `transactionId` is linked. -/
def createdRequest (env : Env) (st : St) (rid : Nat) (a : ℚ) : WithdrawalRequest :=
  { id := st.nextReqId, restaurantId := rid, amount := a, status := WRStatus.Pending,
    transactionId := some (findOrCreateWallet st rid).nextTxId,
    processedAt := none, processedBy := none, rejectionReason := none,
    createdAt := env.now,
    restaurantName := (lookupRestaurantInfo env rid).1,
    restaurantIdString := (lookupRestaurantInfo env rid).2 }

/-- The Pending withdrawal transaction appended by the success path of
`createWithdrawalRequest`. -/
def createdTransaction (st : St) (rid : Nat) (a : ℚ) : Transaction :=
  { id := (findOrCreateWallet st rid).nextTxId, amount := a, type := TxType.withdrawal,
    status := TxStatus.Pending,
    description := "Withdrawal request created - Request ID: " ++ toString st.nextReqId,
    processedAt := none }

theorem create_eq_of_checks (env : Env) (st : St) (rid : Nat) (a : ℚ)
    (h1 : 0 < a) (h2 : a ≤ effectiveAvailableBalance env st rid)
    (h3 : hasPendingRequest st rid = false) :
    createWithdrawalRequest env st rid a =
      (Resp.success 201, createSuccessState env st rid a) := by
  unfold createWithdrawalRequest
  rw [if_neg (not_le.mpr h1), if_neg (not_lt.mpr h2), if_neg (by simp [h3])]

theorem createSuccessState_requests (env : Env) (st : St) (rid : Nat) (a : ℚ) :
    (createSuccessState env st rid a).requests =
      st.requests ++ [createdRequest env st rid a] := rfl

theorem createSuccessState_wallet (env : Env) (st : St) (rid : Nat) (a : ℚ) :
    findOrCreateWallet (createSuccessState env st rid a) rid =
      { totalBalance := qmax 0 ((findOrCreateWallet st rid).totalBalance - a),
        totalWithdrawn := (findOrCreateWallet st rid).totalWithdrawn + a,
        transactions := (findOrCreateWallet st rid).transactions ++
          [createdTransaction st rid a],
        nextTxId := (findOrCreateWallet st rid).nextTxId + 1 } := by
  simp only [createSuccessState]
  rw [findOrCreateWallet_save_self]
  rfl

/-- C4 counterexample: a wallet with stored balance 0 but cycle payout 90
accepts a withdrawal of 50; the new `totalBalance` is 0, not the claimed
old balance minus 50 (which would be −50). -/
theorem create_exact_decrement_false :
    (createWithdrawalRequest ⟨[⟨0, "delivered", ⟨100, 0⟩, some 0, none, 0⟩], [], 0⟩
        ⟨[], [], 0⟩ 0 50).1 = Resp.success 201 ∧
    ¬ ((findOrCreateWallet
          (createWithdrawalRequest ⟨[⟨0, "delivered", ⟨100, 0⟩, some 0, none, 0⟩], [], 0⟩
            ⟨[], [], 0⟩ 0 50).2 0).totalBalance =
        (findOrCreateWallet ⟨[], [], 0⟩ 0).totalBalance - 50) := by
  with_unfolding_all decide

/-- C4 (amended): every successful `createWithdrawalRequest` of amount
`a` appends a new Pending request of amount `a` whose `transactionId`
links the appended Pending withdrawal transaction of amount `a`, and
increments `totalWithdrawn` by `a`; `totalBalance` is decremented by `a`
clamped at zero — it becomes `max(0, old − a)`, which differs from
`old − a` when `a` exceeds the stored balance. -/
theorem create_success_postconditions (env : Env) (st : St) (rid : Nat) (a : ℚ)
    (h1 : 0 < a) (h2 : a ≤ effectiveAvailableBalance env st rid)
    (h3 : hasPendingRequest st rid = false) :
    (createWithdrawalRequest env st rid a).1 = Resp.success 201 ∧
    (createWithdrawalRequest env st rid a).2.requests =
      st.requests ++ [createdRequest env st rid a] ∧
    (createdRequest env st rid a).status = WRStatus.Pending ∧
    (createdRequest env st rid a).amount = a ∧
    (createdRequest env st rid a).transactionId =
      some (createdTransaction st rid a).id ∧
    (findOrCreateWallet (createWithdrawalRequest env st rid a).2 rid).transactions =
      (findOrCreateWallet st rid).transactions ++ [createdTransaction st rid a] ∧
    (createdTransaction st rid a).status = TxStatus.Pending ∧
    (createdTransaction st rid a).type = TxType.withdrawal ∧
    (createdTransaction st rid a).amount = a ∧
    (findOrCreateWallet (createWithdrawalRequest env st rid a).2 rid).totalBalance =
      qmax 0 ((findOrCreateWallet st rid).totalBalance - a) ∧
    (findOrCreateWallet (createWithdrawalRequest env st rid a).2 rid).totalWithdrawn =
      (findOrCreateWallet st rid).totalWithdrawn + a := by
  rw [create_eq_of_checks env st rid a h1 h2 h3]
  refine ⟨rfl, createSuccessState_requests env st rid a, rfl, rfl, rfl, ?_, rfl, rfl, rfl, ?_, ?_⟩
  · rw [createSuccessState_wallet]
  · rw [createSuccessState_wallet]
  · rw [createSuccessState_wallet]

/-- Witness for C4 (amended) at a concrete state: stored balance 20,
cycle payout 90, withdrawal of 50 accepted; balance clamps to 0. -/
theorem create_success_postconditions_witness :
    (0:ℚ) < 50 ∧
    (50:ℚ) ≤ effectiveAvailableBalance
      ⟨[⟨0, "delivered", ⟨100, 0⟩, some 0, none, 0⟩], [], 0⟩
      ⟨[(0, ⟨20, 0, [], 0⟩)], [], 0⟩ 0 ∧
    hasPendingRequest ⟨[(0, ⟨20, 0, [], 0⟩)], [], 0⟩ 0 = false ∧
    (findOrCreateWallet
        (createWithdrawalRequest ⟨[⟨0, "delivered", ⟨100, 0⟩, some 0, none, 0⟩], [], 0⟩
          ⟨[(0, ⟨20, 0, [], 0⟩)], [], 0⟩ 0 50).2 0).totalBalance =
      qmax 0 ((findOrCreateWallet ⟨[(0, ⟨20, 0, [], 0⟩)], [], 0⟩ 0).totalBalance - 50) :=
  ⟨by with_unfolding_all decide, by with_unfolding_all decide, by with_unfolding_all rfl,
   (create_success_postconditions ⟨[⟨0, "delivered", ⟨100, 0⟩, some 0, none, 0⟩], [], 0⟩
      ⟨[(0, ⟨20, 0, [], 0⟩)], [], 0⟩ 0 50 (by with_unfolding_all decide)
      (by with_unfolding_all decide) (by with_unfolding_all rfl)).2.2.2.2.2.2.2.2.2.1⟩

/-- Components of a successful reject whose linked transaction resolves
by id (shared by the reject postconditions and the create-reject
composition). -/
theorem reject_linked_components (env : Env) (st : St) (adminId : Nat) (i : Nat)
    (reason : Option String) (req : WithdrawalRequest) (tid : Nat) (t : Transaction)
    (hfind : st.requests.find? (fun r => r.id = i) = some req)
    (hpend : req.status = WRStatus.Pending)
    (hlink : req.transactionId = some tid)
    (htx : (findOrCreateWallet st req.restaurantId).findTxById tid = some t) :
    (rejectWithdrawalRequest env st (some adminId) i reason).1 = Resp.success 200 ∧
    (rejectWithdrawalRequest env st (some adminId) i reason).2.requests.find?
        (fun r => r.id = i) =
      some { req with status := WRStatus.Rejected, processedAt := some env.now,
                      processedBy := some adminId,
                      rejectionReason :=
                        match reason with
                        | some r => some r
                        | none => req.rejectionReason } ∧
    (∃ t', t' ∈ (findOrCreateWallet
          (rejectWithdrawalRequest env st (some adminId) i reason).2
          req.restaurantId).transactions ∧
        t'.id = t.id ∧ t'.status = TxStatus.Cancelled) ∧
    (findOrCreateWallet (rejectWithdrawalRequest env st (some adminId) i reason).2
        req.restaurantId).totalBalance =
      (findOrCreateWallet st req.restaurantId).totalBalance + req.amount ∧
    (findOrCreateWallet (rejectWithdrawalRequest env st (some adminId) i reason).2
        req.restaurantId).totalWithdrawn =
      qmax 0 ((findOrCreateWallet st req.restaurantId).totalWithdrawn - req.amount) := by
  have hid : req.id = i := by simpa using List.find?_some hfind
  have hfp := findPendingWithdrawalTx_of_link (findOrCreateWallet st req.restaurantId)
    req tid t hlink htx
  have hmem : t ∈ (findOrCreateWallet st req.restaurantId).transactions := by
    unfold Wallet.findTxById at htx
    exact List.mem_of_find?_eq_some htx
  rw [reject_eq_of_pending env st adminId i reason req hfind hpend]
  simp only [hfp]
  refine ⟨by trivial, ?_, ?_, ?_, ?_⟩
  · exact find?_update_by_id st.requests i _ hid (by rw [hfind]; rfl)
  · refine ⟨{ t with status := TxStatus.Cancelled, processedAt := some env.now }, ?_, rfl, rfl⟩
    rw [findOrCreateWallet_save_self]
    show _ ∈ ((findOrCreateWallet st req.restaurantId).setTxStatus t.id
      TxStatus.Cancelled env.now).transactions
    unfold Wallet.setTxStatus
    have := List.mem_map_of_mem
      (fun tx => if tx.id = t.id then
        { tx with status := TxStatus.Cancelled, processedAt := some env.now } else tx) hmem
    simpa using this
  · rw [findOrCreateWallet_save_self]
    rfl
  · rw [findOrCreateWallet_save_self]
    rfl

/-- C6: a successful reject of a Pending request of amount `a` whose
linked transaction exists marks the request Rejected, cancels the linked
transaction, increases `totalBalance` by exactly `a`, and (given
`totalWithdrawn ≥ a`, which holds for every request created by the
system) decreases `totalWithdrawn` by `a`. -/
theorem reject_success_postconditions (env : Env) (st : St) (adminId : Nat) (i : Nat)
    (reason : Option String) (req : WithdrawalRequest) (tid : Nat) (t : Transaction)
    (hfind : st.requests.find? (fun r => r.id = i) = some req)
    (hpend : req.status = WRStatus.Pending)
    (hlink : req.transactionId = some tid)
    (htx : (findOrCreateWallet st req.restaurantId).findTxById tid = some t)
    (htw : req.amount ≤ (findOrCreateWallet st req.restaurantId).totalWithdrawn) :
    (rejectWithdrawalRequest env st (some adminId) i reason).1 = Resp.success 200 ∧
    (∃ req', (rejectWithdrawalRequest env st (some adminId) i reason).2.requests.find?
        (fun r => r.id = i) = some req' ∧
      req'.status = WRStatus.Rejected ∧ req'.amount = req.amount) ∧
    (∃ t', t' ∈ (findOrCreateWallet
          (rejectWithdrawalRequest env st (some adminId) i reason).2
          req.restaurantId).transactions ∧
        t'.id = tid ∧ t'.status = TxStatus.Cancelled) ∧
    (findOrCreateWallet (rejectWithdrawalRequest env st (some adminId) i reason).2
        req.restaurantId).totalBalance =
      (findOrCreateWallet st req.restaurantId).totalBalance + req.amount ∧
    (findOrCreateWallet (rejectWithdrawalRequest env st (some adminId) i reason).2
        req.restaurantId).totalWithdrawn =
      (findOrCreateWallet st req.restaurantId).totalWithdrawn - req.amount := by
  obtain ⟨h1, h2, ⟨t', ht'mem, ht'id, ht'st⟩, h4, h5⟩ :=
    reject_linked_components env st adminId i reason req tid t hfind hpend hlink htx
  have htid : t.id = tid := by
    unfold Wallet.findTxById at htx
    simpa using List.find?_some htx
  refine ⟨h1, ⟨_, h2, rfl, rfl⟩, ⟨t', ht'mem, htid ▸ ht'id, ht'st⟩, h4, ?_⟩
  rw [h5, qmax_eq_max, max_eq_right (sub_nonneg.mpr htw)]

/-- C10: create followed by reject is not a round trip on the balance.
After a successful create of amount `a` against stored balance `b`
(fresh ids) and a successful reject of the new request, `totalBalance`
is `max(0, b − a) + a`: equal to `b` when `a ≤ b`, strictly above `b`
when `a > b` (reachable because the balance check uses the effective
available balance, which can exceed the stored balance). -/
theorem create_then_reject_balance (env : Env) (st : St) (rid adminId : Nat) (a : ℚ)
    (reason : Option String)
    (h1 : 0 < a) (h2 : a ≤ effectiveAvailableBalance env st rid)
    (h3 : hasPendingRequest st rid = false)
    (hfr : ∀ r ∈ st.requests, r.id ≠ st.nextReqId)
    (hft : ∀ t ∈ (findOrCreateWallet st rid).transactions,
      t.id ≠ (findOrCreateWallet st rid).nextTxId) :
    (rejectWithdrawalRequest env (createWithdrawalRequest env st rid a).2 (some adminId)
        st.nextReqId reason).1 = Resp.success 200 ∧
    (findOrCreateWallet (rejectWithdrawalRequest env (createWithdrawalRequest env st rid a).2
        (some adminId) st.nextReqId reason).2 rid).totalBalance =
      qmax 0 ((findOrCreateWallet st rid).totalBalance - a) + a ∧
    (a ≤ (findOrCreateWallet st rid).totalBalance →
      (findOrCreateWallet (rejectWithdrawalRequest env (createWithdrawalRequest env st rid a).2
          (some adminId) st.nextReqId reason).2 rid).totalBalance =
        (findOrCreateWallet st rid).totalBalance) ∧
    ((findOrCreateWallet st rid).totalBalance < a →
      (findOrCreateWallet st rid).totalBalance <
        (findOrCreateWallet (rejectWithdrawalRequest env (createWithdrawalRequest env st rid a).2
            (some adminId) st.nextReqId reason).2 rid).totalBalance) := by
  rw [create_eq_of_checks env st rid a h1 h2 h3]
  have hreq : (createSuccessState env st rid a).requests.find?
      (fun r => r.id = st.nextReqId) = some (createdRequest env st rid a) := by
    rw [createSuccessState_requests,
        find?_append_of_forall_false _ _ _ (fun x hx => by simpa using hfr x hx)]
    exact List.find?_cons_of_pos _ (by simp [createdRequest])
  have htx : (findOrCreateWallet (createSuccessState env st rid a)
        (createdRequest env st rid a).restaurantId).findTxById
      (findOrCreateWallet st rid).nextTxId = some (createdTransaction st rid a) := by
    show (findOrCreateWallet (createSuccessState env st rid a) rid).findTxById
      (findOrCreateWallet st rid).nextTxId = some (createdTransaction st rid a)
    rw [createSuccessState_wallet]
    unfold Wallet.findTxById
    show ((findOrCreateWallet st rid).transactions ++
      [createdTransaction st rid a]).find? (fun t => t.id = (findOrCreateWallet st rid).nextTxId) = _
    rw [find?_append_of_forall_false _ _ _ (fun x hx => by simpa using hft x hx)]
    exact List.find?_cons_of_pos _ (by simp [createdTransaction])
  obtain ⟨hr1, _, _, hbal, _⟩ :=
    reject_linked_components env (createSuccessState env st rid a) adminId st.nextReqId reason
      (createdRequest env st rid a) (findOrCreateWallet st rid).nextTxId
      (createdTransaction st rid a) hreq rfl rfl htx
  have hproj : (createdRequest env st rid a).restaurantId = rid := rfl
  have hamt : (createdRequest env st rid a).amount = a := rfl
  rw [hproj, hamt] at hbal
  have hcsb : (findOrCreateWallet (createSuccessState env st rid a) rid).totalBalance =
      qmax 0 ((findOrCreateWallet st rid).totalBalance - a) := by
    rw [createSuccessState_wallet]
  rw [hcsb] at hbal
  refine ⟨hr1, hbal, ?_, ?_⟩
  · intro hab
    rw [hbal, qmax_eq_max, max_eq_right (sub_nonneg.mpr hab), sub_add_cancel]
  · intro hba
    rw [hbal]
    have h0 := qmax_zero_nonneg ((findOrCreateWallet st rid).totalBalance - a)
    linarith

/-- Witness for C10: stored balance 20, payout 90, create 50 then reject:
the final balance is 50, strictly above the original 20. -/
theorem create_then_reject_balance_witness :
    ((findOrCreateWallet ⟨[(0, ⟨20, 0, [], 0⟩)], [], 0⟩ 0).totalBalance < 50) ∧
    (findOrCreateWallet
        (rejectWithdrawalRequest ⟨[⟨0, "delivered", ⟨100, 0⟩, some 0, none, 0⟩], [], 0⟩
          (createWithdrawalRequest ⟨[⟨0, "delivered", ⟨100, 0⟩, some 0, none, 0⟩], [], 0⟩
            ⟨[(0, ⟨20, 0, [], 0⟩)], [], 0⟩ 0 50).2
          (some 9) (⟨[(0, ⟨20, 0, [], 0⟩)], [], 0⟩ : St).nextReqId none).2 0).totalBalance =
      qmax 0 ((findOrCreateWallet ⟨[(0, ⟨20, 0, [], 0⟩)], [], 0⟩ 0).totalBalance - 50) + 50 ∧
    ((findOrCreateWallet ⟨[(0, ⟨20, 0, [], 0⟩)], [], 0⟩ 0).totalBalance <
      (findOrCreateWallet
        (rejectWithdrawalRequest ⟨[⟨0, "delivered", ⟨100, 0⟩, some 0, none, 0⟩], [], 0⟩
          (createWithdrawalRequest ⟨[⟨0, "delivered", ⟨100, 0⟩, some 0, none, 0⟩], [], 0⟩
            ⟨[(0, ⟨20, 0, [], 0⟩)], [], 0⟩ 0 50).2
          (some 9) (⟨[(0, ⟨20, 0, [], 0⟩)], [], 0⟩ : St).nextReqId none).2 0).totalBalance) :=
  ⟨by with_unfolding_all decide,
   (create_then_reject_balance ⟨[⟨0, "delivered", ⟨100, 0⟩, some 0, none, 0⟩], [], 0⟩
      ⟨[(0, ⟨20, 0, [], 0⟩)], [], 0⟩ 0 9 50 none (by with_unfolding_all decide)
      (by with_unfolding_all decide) (by with_unfolding_all rfl)
      (by with_unfolding_all decide) (by with_unfolding_all decide)).2.1,
   (create_then_reject_balance ⟨[⟨0, "delivered", ⟨100, 0⟩, some 0, none, 0⟩], [], 0⟩
      ⟨[(0, ⟨20, 0, [], 0⟩)], [], 0⟩ 0 9 50 none (by with_unfolding_all decide)
      (by with_unfolding_all decide) (by with_unfolding_all rfl)
      (by with_unfolding_all decide) (by with_unfolding_all decide)).2.2.2
      (by with_unfolding_all decide)⟩

/-- C5: a successful approve of a Pending request marks it Approved,
marks the resolved transaction (linked by id, or description-matched, or
newly created as Completed) Completed, and leaves the wallet's
`totalBalance` (and `totalWithdrawn`) unchanged. -/
theorem approve_success_postconditions (env : Env) (st : St) (adminId : Nat) (i : Nat)
    (req : WithdrawalRequest)
    (hfind : st.requests.find? (fun r => r.id = i) = some req)
    (hpend : req.status = WRStatus.Pending) :
    (approveWithdrawalRequest env st (some adminId) i).1 = Resp.success 200 ∧
    (approveWithdrawalRequest env st (some adminId) i).2.requests.find?
        (fun r => r.id = i) =
      some { req with status := WRStatus.Approved, processedAt := some env.now,
                      processedBy := some adminId } ∧
    (findOrCreateWallet (approveWithdrawalRequest env st (some adminId) i).2
        req.restaurantId).totalBalance =
      (findOrCreateWallet st req.restaurantId).totalBalance ∧
    (findOrCreateWallet (approveWithdrawalRequest env st (some adminId) i).2
        req.restaurantId).totalWithdrawn =
      (findOrCreateWallet st req.restaurantId).totalWithdrawn ∧
    (∀ t, findPendingWithdrawalTx (findOrCreateWallet st req.restaurantId) req = some t →
      ∃ t', t' ∈ (findOrCreateWallet (approveWithdrawalRequest env st (some adminId) i).2
          req.restaurantId).transactions ∧ t'.id = t.id ∧ t'.status = TxStatus.Completed) ∧
    (findPendingWithdrawalTx (findOrCreateWallet st req.restaurantId) req = none →
      ∃ tx, (findOrCreateWallet (approveWithdrawalRequest env st (some adminId) i).2
          req.restaurantId).transactions =
        (findOrCreateWallet st req.restaurantId).transactions ++ [tx] ∧
        tx.status = TxStatus.Completed ∧ tx.type = TxType.withdrawal ∧
        tx.amount = req.amount) := by
  have hid : req.id = i := by simpa using List.find?_some hfind
  rw [approve_eq_of_pending env st adminId i req hfind hpend]
  refine ⟨by trivial, ?_, ?_, ?_, ?_, ?_⟩
  · exact find?_update_by_id st.requests i _ hid (by rw [hfind]; rfl)
  · cases hft : findPendingWithdrawalTx (findOrCreateWallet st req.restaurantId) req with
    | some t =>
      simp only [hft]
      rw [findOrCreateWallet_save_self]
      rfl
    | none =>
      simp only [hft]
      rw [findOrCreateWallet_save_self]
      rfl
  · cases hft : findPendingWithdrawalTx (findOrCreateWallet st req.restaurantId) req with
    | some t =>
      simp only [hft]
      rw [findOrCreateWallet_save_self]
      rfl
    | none =>
      simp only [hft]
      rw [findOrCreateWallet_save_self]
      rfl
  · intro t hft
    simp only [hft]
    rw [findOrCreateWallet_save_self]
    have hmem : t ∈ (findOrCreateWallet st req.restaurantId).transactions :=
      mem_of_findPendingWithdrawalTx _ _ _ hft
    refine ⟨{ t with status := TxStatus.Completed, processedAt := some env.now }, ?_, rfl, rfl⟩
    show _ ∈ ((findOrCreateWallet st req.restaurantId).setTxStatus t.id
      TxStatus.Completed env.now).transactions
    unfold Wallet.setTxStatus
    have := List.mem_map_of_mem
      (fun tx => if tx.id = t.id then
        { tx with status := TxStatus.Completed, processedAt := some env.now } else tx) hmem
    simpa using this
  · intro hft
    simp only [hft]
    rw [findOrCreateWallet_save_self]
    exact ⟨_, rfl, rfl, rfl, rfl⟩

/-- Witness for C5 at a concrete state with a Pending request of 50
linked to transaction 3: approval succeeds and the balance of 10 is
untouched. -/
theorem approve_success_postconditions_witness :
    (⟨[(0, ⟨10, 50, [⟨3, 50, TxType.withdrawal, TxStatus.Pending,
          "Withdrawal request created - Request ID: 0", none⟩], 4⟩)],
       [⟨0, 0, 50, WRStatus.Pending, some 3, none, none, none, 0, "R", "R1"⟩], 1⟩ :
      St).requests.find? (fun r => r.id = 0) =
      some ⟨0, 0, 50, WRStatus.Pending, some 3, none, none, none, 0, "R", "R1"⟩ ∧
    (approveWithdrawalRequest ⟨[], [], 5⟩
        ⟨[(0, ⟨10, 50, [⟨3, 50, TxType.withdrawal, TxStatus.Pending,
            "Withdrawal request created - Request ID: 0", none⟩], 4⟩)],
          [⟨0, 0, 50, WRStatus.Pending, some 3, none, none, none, 0, "R", "R1"⟩], 1⟩
        (some 9) 0).1 = Resp.success 200 ∧
    (findOrCreateWallet (approveWithdrawalRequest ⟨[], [], 5⟩
        ⟨[(0, ⟨10, 50, [⟨3, 50, TxType.withdrawal, TxStatus.Pending,
            "Withdrawal request created - Request ID: 0", none⟩], 4⟩)],
          [⟨0, 0, 50, WRStatus.Pending, some 3, none, none, none, 0, "R", "R1"⟩], 1⟩
        (some 9) 0).2 0).totalBalance =
      (findOrCreateWallet
        ⟨[(0, ⟨10, 50, [⟨3, 50, TxType.withdrawal, TxStatus.Pending,
            "Withdrawal request created - Request ID: 0", none⟩], 4⟩)],
          [⟨0, 0, 50, WRStatus.Pending, some 3, none, none, none, 0, "R", "R1"⟩], 1⟩
        0).totalBalance :=
  ⟨by with_unfolding_all rfl,
   (approve_success_postconditions ⟨[], [], 5⟩
      ⟨[(0, ⟨10, 50, [⟨3, 50, TxType.withdrawal, TxStatus.Pending,
          "Withdrawal request created - Request ID: 0", none⟩], 4⟩)],
        [⟨0, 0, 50, WRStatus.Pending, some 3, none, none, none, 0, "R", "R1"⟩], 1⟩
      9 0 ⟨0, 0, 50, WRStatus.Pending, some 3, none, none, none, 0, "R", "R1"⟩
      (by with_unfolding_all rfl) rfl).1,
   (approve_success_postconditions ⟨[], [], 5⟩
      ⟨[(0, ⟨10, 50, [⟨3, 50, TxType.withdrawal, TxStatus.Pending,
          "Withdrawal request created - Request ID: 0", none⟩], 4⟩)],
        [⟨0, 0, 50, WRStatus.Pending, some 3, none, none, none, 0, "R", "R1"⟩], 1⟩
      9 0 ⟨0, 0, 50, WRStatus.Pending, some 3, none, none, none, 0, "R", "R1"⟩
      (by with_unfolding_all rfl) rfl).2.2.1⟩

/-- Witness for C6 at the same concrete state: rejecting the Pending
request of 50 refunds the balance from 10 to 60 and lowers
`totalWithdrawn` from 50 to 0. -/
theorem reject_success_postconditions_witness :
    ((50:ℚ) ≤ (findOrCreateWallet
        ⟨[(0, ⟨10, 50, [⟨3, 50, TxType.withdrawal, TxStatus.Pending,
            "Withdrawal request created - Request ID: 0", none⟩], 4⟩)],
          [⟨0, 0, 50, WRStatus.Pending, some 3, none, none, none, 0, "R", "R1"⟩], 1⟩
        0).totalWithdrawn) ∧
    (findOrCreateWallet (rejectWithdrawalRequest ⟨[], [], 5⟩
        ⟨[(0, ⟨10, 50, [⟨3, 50, TxType.withdrawal, TxStatus.Pending,
            "Withdrawal request created - Request ID: 0", none⟩], 4⟩)],
          [⟨0, 0, 50, WRStatus.Pending, some 3, none, none, none, 0, "R", "R1"⟩], 1⟩
        (some 9) 0 none).2 0).totalBalance =
      (findOrCreateWallet
        ⟨[(0, ⟨10, 50, [⟨3, 50, TxType.withdrawal, TxStatus.Pending,
            "Withdrawal request created - Request ID: 0", none⟩], 4⟩)],
          [⟨0, 0, 50, WRStatus.Pending, some 3, none, none, none, 0, "R", "R1"⟩], 1⟩
        0).totalBalance + 50 ∧
    (findOrCreateWallet (rejectWithdrawalRequest ⟨[], [], 5⟩
        ⟨[(0, ⟨10, 50, [⟨3, 50, TxType.withdrawal, TxStatus.Pending,
            "Withdrawal request created - Request ID: 0", none⟩], 4⟩)],
          [⟨0, 0, 50, WRStatus.Pending, some 3, none, none, none, 0, "R", "R1"⟩], 1⟩
        (some 9) 0 none).2 0).totalWithdrawn =
      (findOrCreateWallet
        ⟨[(0, ⟨10, 50, [⟨3, 50, TxType.withdrawal, TxStatus.Pending,
            "Withdrawal request created - Request ID: 0", none⟩], 4⟩)],
          [⟨0, 0, 50, WRStatus.Pending, some 3, none, none, none, 0, "R", "R1"⟩], 1⟩
        0).totalWithdrawn - 50 :=
  ⟨by with_unfolding_all decide,
   (reject_success_postconditions ⟨[], [], 5⟩
      ⟨[(0, ⟨10, 50, [⟨3, 50, TxType.withdrawal, TxStatus.Pending,
          "Withdrawal request created - Request ID: 0", none⟩], 4⟩)],
        [⟨0, 0, 50, WRStatus.Pending, some 3, none, none, none, 0, "R", "R1"⟩], 1⟩
      9 0 none ⟨0, 0, 50, WRStatus.Pending, some 3, none, none, none, 0, "R", "R1"⟩
      3 ⟨3, 50, TxType.withdrawal, TxStatus.Pending,
          "Withdrawal request created - Request ID: 0", none⟩
      (by with_unfolding_all rfl) rfl rfl (by with_unfolding_all rfl)
      (by with_unfolding_all decide)).2.2.2.1,
   (reject_success_postconditions ⟨[], [], 5⟩
      ⟨[(0, ⟨10, 50, [⟨3, 50, TxType.withdrawal, TxStatus.Pending,
          "Withdrawal request created - Request ID: 0", none⟩], 4⟩)],
        [⟨0, 0, 50, WRStatus.Pending, some 3, none, none, none, 0, "R", "R1"⟩], 1⟩
      9 0 none ⟨0, 0, 50, WRStatus.Pending, some 3, none, none, none, 0, "R", "R1"⟩
      3 ⟨3, 50, TxType.withdrawal, TxStatus.Pending,
          "Withdrawal request created - Request ID: 0", none⟩
      (by with_unfolding_all rfl) rfl rfl (by with_unfolding_all rfl)
      (by with_unfolding_all decide)).2.2.2.2⟩

/-- C8: with admin authentication, approve and reject return a client
error exactly when the request does not exist or is not Pending, and in
those cases the state (requests and wallets) is unchanged. -/
theorem approve_reject_nonpending_guard (env : Env) (st : St) (adminId : Nat) (i : Nat)
    (reason : Option String) :
    ((approveWithdrawalRequest env st (some adminId) i).1.isClientError = true ↔
      ∀ req, st.requests.find? (fun r => r.id = i) = some req →
        req.status ≠ WRStatus.Pending) ∧
    ((rejectWithdrawalRequest env st (some adminId) i reason).1.isClientError = true ↔
      ∀ req, st.requests.find? (fun r => r.id = i) = some req →
        req.status ≠ WRStatus.Pending) ∧
    (∀ req, st.requests.find? (fun r => r.id = i) = some req →
      req.status ≠ WRStatus.Pending →
      approveWithdrawalRequest env st (some adminId) i =
        (Resp.error 400 "Withdrawal request is already processed", st) ∧
      rejectWithdrawalRequest env st (some adminId) i reason =
        (Resp.error 400 "Withdrawal request is already processed", st)) ∧
    (st.requests.find? (fun r => r.id = i) = none →
      approveWithdrawalRequest env st (some adminId) i =
        (Resp.error 404 "Withdrawal request not found", st) ∧
      rejectWithdrawalRequest env st (some adminId) i reason =
        (Resp.error 404 "Withdrawal request not found", st)) := by
  cases hf : st.requests.find? (fun r => r.id = i) with
  | none =>
    have ha : approveWithdrawalRequest env st (some adminId) i =
        (Resp.error 404 "Withdrawal request not found", st) := by
      unfold approveWithdrawalRequest
      simp only [hf]
    have hr : rejectWithdrawalRequest env st (some adminId) i reason =
        (Resp.error 404 "Withdrawal request not found", st) := by
      unfold rejectWithdrawalRequest
      simp only [hf]
    refine ⟨?_, ?_, ?_, ?_⟩
    · rw [ha]
      exact ⟨fun _ req hreq => (nomatch hreq), fun _ => rfl⟩
    · rw [hr]
      exact ⟨fun _ req hreq => (nomatch hreq), fun _ => rfl⟩
    · exact fun req hreq => nomatch hreq
    · exact fun _ => ⟨ha, hr⟩
  | some req =>
    by_cases hp : req.status = WRStatus.Pending
    · have ha := approve_eq_of_pending env st adminId i req hf hp
      have hr := reject_eq_of_pending env st adminId i reason req hf hp
      refine ⟨?_, ?_, ?_, ?_⟩
      · rw [ha]
        constructor
        · intro hce
          simp [Resp.isClientError] at hce
        · intro hall
          exact absurd hp (hall req rfl)
      · rw [hr]
        constructor
        · intro hce
          simp [Resp.isClientError] at hce
        · intro hall
          exact absurd hp (hall req rfl)
      · intro req' hreq' hnp
        rw [Option.some_inj] at hreq'
        exact absurd (hreq' ▸ hp) hnp
      · intro h
        nomatch h
    · have ha : approveWithdrawalRequest env st (some adminId) i =
          (Resp.error 400 "Withdrawal request is already processed", st) := by
        unfold approveWithdrawalRequest
        simp only [hf]
        rw [if_pos hp]
      have hr : rejectWithdrawalRequest env st (some adminId) i reason =
          (Resp.error 400 "Withdrawal request is already processed", st) := by
        unfold rejectWithdrawalRequest
        simp only [hf]
        rw [if_pos hp]
      refine ⟨?_, ?_, ?_, ?_⟩
      · rw [ha]
        exact ⟨fun _ req' hreq' => (Option.some_inj.mp hreq') ▸ hp, fun _ => rfl⟩
      · rw [hr]
        exact ⟨fun _ req' hreq' => (Option.some_inj.mp hreq') ▸ hp, fun _ => rfl⟩
      · exact fun req' hreq' hnp => ⟨ha, hr⟩
      · intro h
        nomatch h

/-- Witness for C8 at a concrete state whose only request is already
Approved: approve and reject both fail with 400 and change nothing. -/
theorem approve_reject_nonpending_guard_witness :
    (⟨[], [⟨0, 0, 5, WRStatus.Approved, none, none, none, none, 0, "R", "R1"⟩], 1⟩ :
        St).requests.find? (fun r => r.id = 0) =
      some ⟨0, 0, 5, WRStatus.Approved, none, none, none, none, 0, "R", "R1"⟩ ∧
    approveWithdrawalRequest ⟨[], [], 0⟩
        ⟨[], [⟨0, 0, 5, WRStatus.Approved, none, none, none, none, 0, "R", "R1"⟩], 1⟩
        (some 9) 0 =
      (Resp.error 400 "Withdrawal request is already processed",
        ⟨[], [⟨0, 0, 5, WRStatus.Approved, none, none, none, none, 0, "R", "R1"⟩], 1⟩) ∧
    rejectWithdrawalRequest ⟨[], [], 0⟩
        ⟨[], [⟨0, 0, 5, WRStatus.Approved, none, none, none, none, 0, "R", "R1"⟩], 1⟩
        (some 9) 0 none =
      (Resp.error 400 "Withdrawal request is already processed",
        ⟨[], [⟨0, 0, 5, WRStatus.Approved, none, none, none, none, 0, "R", "R1"⟩], 1⟩) :=
  ⟨by with_unfolding_all rfl,
   ((approve_reject_nonpending_guard ⟨[], [], 0⟩
      ⟨[], [⟨0, 0, 5, WRStatus.Approved, none, none, none, none, 0, "R", "R1"⟩], 1⟩
      9 0 none).2.2.1
      ⟨0, 0, 5, WRStatus.Approved, none, none, none, none, 0, "R", "R1"⟩
      (by with_unfolding_all rfl) (by decide)).1,
   ((approve_reject_nonpending_guard ⟨[], [], 0⟩
      ⟨[], [⟨0, 0, 5, WRStatus.Approved, none, none, none, none, 0, "R", "R1"⟩], 1⟩
      9 0 none).2.2.1
      ⟨0, 0, 5, WRStatus.Approved, none, none, none, none, 0, "R", "R1"⟩
      (by with_unfolding_all rfl) (by decide)).2⟩

theorem hasPending_false_countP (st : St) (rid : Nat)
    (h : hasPendingRequest st rid = false) :
    st.requests.countP
      (fun r => r.restaurantId = rid && r.status = WRStatus.Pending) = 0 := by
  rw [List.countP_eq_zero]
  intro r hr hpr
  have hany : st.requests.any
      (fun r => r.restaurantId = rid && r.status = WRStatus.Pending) = true :=
    List.any_eq_true.mpr ⟨r, hr, hpr⟩
  unfold hasPendingRequest at h
  rw [h] at hany
  exact nomatch hany

/-- C3: at most one Pending withdrawal request exists per restaurant:
`createWithdrawalRequest` returns a client error and changes nothing
whenever a Pending request for the restaurant exists, and the
at-most-one-Pending invariant is preserved by every operation. -/
theorem pending_at_most_one_invariant (env : Env) (st : St) (op : Op) (rid : Nat) (a : ℚ) :
    (hasPendingRequest st rid = true →
      (createWithdrawalRequest env st rid a).1.isClientError = true ∧
      (createWithdrawalRequest env st rid a).2 = st) ∧
    (PendingAtMostOne st → PendingAtMostOne (applyOp env st op)) := by
  constructor
  · intro hp
    unfold createWithdrawalRequest
    by_cases h1 : a ≤ 0
    · rw [if_pos h1]; exact ⟨rfl, rfl⟩
    · rw [if_neg h1]
      by_cases h2 : effectiveAvailableBalance env st rid < a
      · rw [if_pos h2]; exact ⟨rfl, rfl⟩
      · rw [if_neg h2, if_pos hp]; exact ⟨rfl, rfl⟩
  · intro hP
    cases op with
    | create rid1 a1 =>
      show PendingAtMostOne (createWithdrawalRequest env st rid1 a1).2
      unfold createWithdrawalRequest
      by_cases h1 : a1 ≤ 0
      · rw [if_pos h1]; exact hP
      · rw [if_neg h1]
        by_cases h2 : effectiveAvailableBalance env st rid1 < a1
        · rw [if_pos h2]; exact hP
        · rw [if_neg h2]
          by_cases h3 : hasPendingRequest st rid1 = true
          · rw [if_pos h3]; exact hP
          · rw [if_neg h3]
            have hb : hasPendingRequest st rid1 = false := by
              revert h3; cases hasPendingRequest st rid1 <;> simp
            intro rid2
            show ((createSuccessState env st rid1 a1).requests.countP
              (fun r => r.restaurantId = rid2 && r.status = WRStatus.Pending)) ≤ 1
            rw [createSuccessState_requests, List.countP_append]
            by_cases hrr : rid2 = rid1
            · subst hrr
              rw [hasPending_false_countP st rid2 hb]
              have hlen := List.countP_le_length
                (p := fun r => r.restaurantId = rid2 && r.status = WRStatus.Pending)
                (l := [createdRequest env st rid2 a1])
              simpa using hlen
            · have hone : ([createdRequest env st rid1 a1].countP
                  (fun r => r.restaurantId = rid2 && r.status = WRStatus.Pending)) = 0 := by
                rw [List.countP_eq_zero]
                intro r hr
                have hr' : r = createdRequest env st rid1 a1 := by simpa using hr
                subst hr'
                intro hpr
                have : rid1 = rid2 := by
                  have := (Bool.and_eq_true _ _).mp hpr
                  simpa [createdRequest] using this.1
                exact hrr this.symm
              rw [hone]
              simpa using hP rid2
    | approve admin i =>
      show PendingAtMostOne (approveWithdrawalRequest env st admin i).2
      cases admin with
      | none => exact hP
      | some adminId =>
        cases hf : st.requests.find? (fun r => r.id = i) with
        | none =>
          have heq : approveWithdrawalRequest env st (some adminId) i =
              (Resp.error 404 "Withdrawal request not found", st) := by
            unfold approveWithdrawalRequest
            simp only [hf]
          rw [heq]; exact hP
        | some req =>
          by_cases hp : req.status ≠ WRStatus.Pending
          · have heq : approveWithdrawalRequest env st (some adminId) i =
                (Resp.error 400 "Withdrawal request is already processed", st) := by
              unfold approveWithdrawalRequest
              simp only [hf]
              rw [if_pos hp]
            rw [heq]; exact hP
          · have heq := approve_eq_of_pending env st adminId i req hf (not_not.mp hp)
            rw [heq]
            intro rid2
            refine le_trans (countP_map_le st.requests _
              (fun r => r.restaurantId = rid2 && r.status = WRStatus.Pending) ?_) (hP rid2)
            intro x hx
            by_cases hxe : x.id = req.id
            · rw [if_pos hxe] at hx
              simp at hx
            · rw [if_neg hxe] at hx
              exact hx
    | reject admin i reason =>
      show PendingAtMostOne (rejectWithdrawalRequest env st admin i reason).2
      cases admin with
      | none => exact hP
      | some adminId =>
        cases hf : st.requests.find? (fun r => r.id = i) with
        | none =>
          have heq : rejectWithdrawalRequest env st (some adminId) i reason =
              (Resp.error 404 "Withdrawal request not found", st) := by
            unfold rejectWithdrawalRequest
            simp only [hf]
          rw [heq]; exact hP
        | some req =>
          by_cases hp : req.status ≠ WRStatus.Pending
          · have heq : rejectWithdrawalRequest env st (some adminId) i reason =
                (Resp.error 400 "Withdrawal request is already processed", st) := by
              unfold rejectWithdrawalRequest
              simp only [hf]
              rw [if_pos hp]
            rw [heq]; exact hP
          · have heq := reject_eq_of_pending env st adminId i reason req hf (not_not.mp hp)
            rw [heq]
            intro rid2
            refine le_trans (countP_map_le st.requests _
              (fun r => r.restaurantId = rid2 && r.status = WRStatus.Pending) ?_) (hP rid2)
            intro x hx
            by_cases hxe : x.id = req.id
            · rw [if_pos hxe] at hx
              simp at hx
            · rw [if_neg hxe] at hx
              exact hx

/-- Witness for C3: a state with one Pending request for restaurant 0
rejects a second create, and the invariant survives the attempt. -/
theorem pending_at_most_one_invariant_witness :
    hasPendingRequest
      ⟨[], [⟨0, 0, 5, WRStatus.Pending, none, none, none, none, 0, "R", "R1"⟩], 1⟩ 0 = true ∧
    (createWithdrawalRequest ⟨[], [], 0⟩
      ⟨[], [⟨0, 0, 5, WRStatus.Pending, none, none, none, none, 0, "R", "R1"⟩], 1⟩
      0 7).1.isClientError = true ∧
    (createWithdrawalRequest ⟨[], [], 0⟩
      ⟨[], [⟨0, 0, 5, WRStatus.Pending, none, none, none, none, 0, "R", "R1"⟩], 1⟩
      0 7).2 =
      ⟨[], [⟨0, 0, 5, WRStatus.Pending, none, none, none, none, 0, "R", "R1"⟩], 1⟩ ∧
    PendingAtMostOne (applyOp ⟨[], [], 0⟩
      ⟨[], [⟨0, 0, 5, WRStatus.Pending, none, none, none, none, 0, "R", "R1"⟩], 1⟩
      (Op.create 0 7)) :=
  ⟨by with_unfolding_all rfl,
   ((pending_at_most_one_invariant ⟨[], [], 0⟩
      ⟨[], [⟨0, 0, 5, WRStatus.Pending, none, none, none, none, 0, "R", "R1"⟩], 1⟩
      (Op.create 0 7) 0 7).1 (by with_unfolding_all rfl)).1,
   ((pending_at_most_one_invariant ⟨[], [], 0⟩
      ⟨[], [⟨0, 0, 5, WRStatus.Pending, none, none, none, none, 0, "R", "R1"⟩], 1⟩
      (Op.create 0 7) 0 7).1 (by with_unfolding_all rfl)).2,
   (pending_at_most_one_invariant ⟨[], [], 0⟩
      ⟨[], [⟨0, 0, 5, WRStatus.Pending, none, none, none, none, 0, "R", "R1"⟩], 1⟩
      (Op.create 0 7) 0 7).2
     (by intro rid; exact le_trans (List.countP_le_length _) (by simp))⟩

theorem balancesNonneg_saveWallet (st : St) (rid : Nat) (w : Wallet)
    (hw : 0 ≤ w.totalBalance) (h : BalancesNonneg st) :
    BalancesNonneg (saveWallet st rid w) := by
  intro p hp
  rcases mem_upsertWallet st.wallets rid w p hp with h' | h'
  · rw [h']; exact hw
  · exact h p h'

/-- C7: every one of the three operations preserves non-negativity of all
wallet balances (the create deduction clamps at zero, approve leaves the
balance alone, reject adds the request's non-negative amount), together
with the auxiliary invariant that stored request amounts are
non-negative. -/
theorem totalBalance_nonneg_preserved (env : Env) (st : St) (op : Op)
    (h1 : BalancesNonneg st) (h2 : AmountsNonneg st) :
    BalancesNonneg (applyOp env st op) ∧ AmountsNonneg (applyOp env st op) := by
  cases op with
  | create rid a =>
    show BalancesNonneg (createWithdrawalRequest env st rid a).2 ∧
      AmountsNonneg (createWithdrawalRequest env st rid a).2
    unfold createWithdrawalRequest
    by_cases c1 : a ≤ 0
    · rw [if_pos c1]; exact ⟨h1, h2⟩
    · rw [if_neg c1]
      by_cases c2 : effectiveAvailableBalance env st rid < a
      · rw [if_pos c2]; exact ⟨h1, h2⟩
      · rw [if_neg c2]
        by_cases c3 : hasPendingRequest st rid = true
        · rw [if_pos c3]; exact ⟨h1, h2⟩
        · rw [if_neg c3]
          constructor
          · show BalancesNonneg (createSuccessState env st rid a)
            exact balancesNonneg_saveWallet _ rid _ (qmax_zero_nonneg _) h1
          · show AmountsNonneg (createSuccessState env st rid a)
            intro r hr
            rw [createSuccessState_requests] at hr
            rcases List.mem_append.mp hr with h' | h'
            · exact h2 r h'
            · have hr' : r = createdRequest env st rid a := by simpa using h'
              subst hr'
              show (0:ℚ) ≤ a
              exact le_of_lt (not_le.mp c1)
  | approve admin i =>
    show BalancesNonneg (approveWithdrawalRequest env st admin i).2 ∧
      AmountsNonneg (approveWithdrawalRequest env st admin i).2
    cases admin with
    | none => exact ⟨h1, h2⟩
    | some adminId =>
      cases hf : st.requests.find? (fun r => r.id = i) with
      | none =>
        have heq : approveWithdrawalRequest env st (some adminId) i =
            (Resp.error 404 "Withdrawal request not found", st) := by
          unfold approveWithdrawalRequest
          simp only [hf]
        rw [heq]; exact ⟨h1, h2⟩
      | some req =>
        by_cases hp : req.status ≠ WRStatus.Pending
        · have heq : approveWithdrawalRequest env st (some adminId) i =
              (Resp.error 400 "Withdrawal request is already processed", st) := by
            unfold approveWithdrawalRequest
            simp only [hf]
            rw [if_pos hp]
          rw [heq]; exact ⟨h1, h2⟩
        · have heq := approve_eq_of_pending env st adminId i req hf (not_not.mp hp)
          rw [heq]
          have hreqmem : req ∈ st.requests := List.mem_of_find?_eq_some hf
          constructor
          · apply balancesNonneg_saveWallet
            · cases hft : findPendingWithdrawalTx
                (findOrCreateWallet st req.restaurantId) req with
              | some t =>
                simp only [hft]
                exact findOrCreateWallet_balance_nonneg st _ h1
              | none =>
                simp only [hft]
                exact findOrCreateWallet_balance_nonneg st _ h1
            · exact fun p hp' => h1 p hp'
          · intro r hr
            rcases List.mem_map.mp hr with ⟨x, hx, hfx⟩
            rw [← hfx]
            by_cases hxe : x.id = req.id
            · rw [if_pos hxe]
              show (0:ℚ) ≤ req.amount
              exact h2 req hreqmem
            · rw [if_neg hxe]
              exact h2 x hx
  | reject admin i reason =>
    show BalancesNonneg (rejectWithdrawalRequest env st admin i reason).2 ∧
      AmountsNonneg (rejectWithdrawalRequest env st admin i reason).2
    cases admin with
    | none => exact ⟨h1, h2⟩
    | some adminId =>
      cases hf : st.requests.find? (fun r => r.id = i) with
      | none =>
        have heq : rejectWithdrawalRequest env st (some adminId) i reason =
            (Resp.error 404 "Withdrawal request not found", st) := by
          unfold rejectWithdrawalRequest
          simp only [hf]
        rw [heq]; exact ⟨h1, h2⟩
      | some req =>
        by_cases hp : req.status ≠ WRStatus.Pending
        · have heq : rejectWithdrawalRequest env st (some adminId) i reason =
              (Resp.error 400 "Withdrawal request is already processed", st) := by
            unfold rejectWithdrawalRequest
            simp only [hf]
            rw [if_pos hp]
          rw [heq]; exact ⟨h1, h2⟩
        · have heq := reject_eq_of_pending env st adminId i reason req hf (not_not.mp hp)
          rw [heq]
          have hreqmem : req ∈ st.requests := List.mem_of_find?_eq_some hf
          constructor
          · apply balancesNonneg_saveWallet
            · cases hft : findPendingWithdrawalTx
                (findOrCreateWallet st req.restaurantId) req with
              | some t =>
                simp only [hft]
                exact add_nonneg (findOrCreateWallet_balance_nonneg st _ h1)
                  (h2 req hreqmem)
              | none =>
                simp only [hft]
                exact add_nonneg (findOrCreateWallet_balance_nonneg st _ h1)
                  (h2 req hreqmem)
            · exact fun p hp' => h1 p hp'
          · intro r hr
            rcases List.mem_map.mp hr with ⟨x, hx, hfx⟩
            rw [← hfx]
            by_cases hxe : x.id = req.id
            · rw [if_pos hxe]
              show (0:ℚ) ≤ req.amount
              exact h2 req hreqmem
            · rw [if_neg hxe]
              exact h2 x hx

/-- Witness for C7: a concrete non-negative state stays non-negative
under a reject that refunds a request. -/
theorem totalBalance_nonneg_preserved_witness :
    BalancesNonneg
      ⟨[(0, ⟨10, 50, [⟨3, 50, TxType.withdrawal, TxStatus.Pending,
          "Withdrawal request created - Request ID: 0", none⟩], 4⟩)],
        [⟨0, 0, 50, WRStatus.Pending, some 3, none, none, none, 0, "R", "R1"⟩], 1⟩ ∧
    AmountsNonneg
      ⟨[(0, ⟨10, 50, [⟨3, 50, TxType.withdrawal, TxStatus.Pending,
          "Withdrawal request created - Request ID: 0", none⟩], 4⟩)],
        [⟨0, 0, 50, WRStatus.Pending, some 3, none, none, none, 0, "R", "R1"⟩], 1⟩ ∧
    BalancesNonneg (applyOp ⟨[], [], 5⟩
      ⟨[(0, ⟨10, 50, [⟨3, 50, TxType.withdrawal, TxStatus.Pending,
          "Withdrawal request created - Request ID: 0", none⟩], 4⟩)],
        [⟨0, 0, 50, WRStatus.Pending, some 3, none, none, none, 0, "R", "R1"⟩], 1⟩
      (Op.reject (some 9) 0 none)) :=
  ⟨by unfold BalancesNonneg; with_unfolding_all decide,
   by unfold AmountsNonneg; with_unfolding_all decide,
   (totalBalance_nonneg_preserved ⟨[], [], 5⟩
      ⟨[(0, ⟨10, 50, [⟨3, 50, TxType.withdrawal, TxStatus.Pending,
          "Withdrawal request created - Request ID: 0", none⟩], 4⟩)],
        [⟨0, 0, 50, WRStatus.Pending, some 3, none, none, none, 0, "R", "R1"⟩], 1⟩
      (Op.reject (some 9) 0 none)
      (by unfold BalancesNonneg; with_unfolding_all decide)
      (by unfold AmountsNonneg; with_unfolding_all decide)).1⟩
